import Mathlib

/-!
Verification of the terminal Twitch chat client (`terminal-twitch-chat`).

The Rust sources are shallowly embedded: the message store (`VecDeque` of
chat entries, front = most recent), the UI driver's scroll handling, the
IRC run loop (`twitch_irc`) with its `biased` select, the room-state
handler, and the kitty-graphics-protocol encoder
(`src/emotes/graphics_protocol.rs`).  Rust machine integers are modelled
as `Nat` (the values involved — lengths, offsets, ids, dimensions, delays
— never approach overflow in the modelled code paths).  Fallible Rust
code is modelled with `Except`/`Option`, and the file system visible to
the staging code is an explicit list of staged file paths threaded
through the operations.
-/

/-! ## Message store (src/src/ui/mod.rs, src/src/terminal.rs)

The store is `App.messages : VecDeque<Data>`; new entries are pushed to
the front (`push_front`), and `draw_ui` runs
`app.messages.truncate(config.terminal.maximum_messages)` once per redraw
tick, which keeps the first `max` (i.e. most recent) entries. -/

/-- `VecDeque::push_front`: the new entry becomes the front (most recent). -/
def push_front {α : Type} (e : α) (store : List α) : List α :=
  e :: store

/-- `VecDeque::truncate(max)`: keeps the first `max` entries (the front of
the deque, i.e. the most recent ones), dropping from the back. -/
def truncateStore {α : Type} (max : Nat) (store : List α) : List α :=
  store.take max

/-- A sequence of inserts, each pushed to the front in order:
`pushAll [e1, e2, e3] s` pushes `e1`, then `e2`, then `e3`, so `e3`
ends up as the front (most recent) entry. -/
def pushAll {α : Type} (es : List α) (store : List α) : List α :=
  es.foldl (fun acc e => push_front e acc) store

theorem pushAll_eq_reverse_append {α : Type} (es store : List α) :
    pushAll es store = es.reverse ++ store := by
  induction es generalizing store with
  | nil => simp [pushAll]
  | cons e es ih =>
    simp only [pushAll, List.foldl_cons, List.reverse_cons, List.append_assoc] at ih ⊢
    rw [ih]
    simp [push_front]

/-! ## Scroll state (src/src/handlers/app.rs, src/src/terminal.rs)

`Scrolling` is the scroll-offset state object; the UI driver guards
scroll-up with `scroll_offset < messages.len()`, scroll-down with
`scroll_offset > 0`, bumps the offset by one when a new message arrives
while scrolled (`scroll_offset > 0`), and truncates the store once per
tick without touching the offset. -/

/-- The `Scrolling` state from `handlers/app.rs` (offset is a `usize`). -/
structure Scrolling where
  offset : Nat
  inverted : Bool
deriving DecidableEq, Repr

/-- `Scrolling::new(inverted)`. -/
def Scrolling.new (inverted : Bool) : Scrolling :=
  { offset := 0, inverted := inverted }

/-- `Scrolling::up`: `self.offset += 1` (no clamping in the state object
itself; the UI driver guards the call). -/
def Scrolling.up (s : Scrolling) : Scrolling :=
  { s with offset := s.offset + 1 }

/-- `Scrolling::down`: `self.offset = self.offset.saturating_sub(1)`
(`Nat` subtraction is saturating). -/
def Scrolling.down (s : Scrolling) : Scrolling :=
  { s with offset := s.offset - 1 }

/-- `Scrolling::jump_to(index)`. -/
def Scrolling.jump_to (s : Scrolling) (index : Nat) : Scrolling :=
  { s with offset := index }

/-- `Scrolling::get_offset`. -/
def Scrolling.get_offset (s : Scrolling) : Nat :=
  s.offset

/-- The slice of `App` state the scroll/truncation operations act on:
the message store and the scroll offset. -/
structure AppScroll (α : Type) where
  messages : List α
  scrolling : Scrolling
deriving DecidableEq, Repr

/-- The operations of the UI driver tick loop that touch the message
store or the scroll offset. -/
inductive UiOp (α : Type) where
  /-- `Key::ScrollUp` handling in `ui_driver`. -/
  | scrollUp : UiOp α
  /-- `Key::ScrollDown` handling in `ui_driver`. -/
  | scrollDown : UiOp α
  /-- A new message received on the channel: `push_front` plus the
  "pad for more messages" offset adjustment. -/
  | arrival (m : α) : UiOp α
  /-- The once-per-tick `app.messages.truncate(maximum_messages)` in
  `draw_ui`. -/
  | truncatePass (cap : Nat) : UiOp α
deriving DecidableEq, Repr

/-- One UI-driver operation, as written in `src/src/terminal.rs` and
`src/src/ui/mod.rs`:
scroll-up runs only under the guard `scroll_offset < messages.len()`;
scroll-down only under `scroll_offset > 0`; a new arrival is pushed to
the front and, if currently scrolled (`scroll_offset > 0`), the offset
is incremented to keep the view in place; the truncation pass takes the
first `cap` entries and does not touch the offset. -/
def uiStep {α : Type} (s : AppScroll α) : UiOp α → AppScroll α
  | .scrollUp =>
    if s.scrolling.get_offset < s.messages.length then
      { s with scrolling := s.scrolling.up }
    else s
  | .scrollDown =>
    if s.scrolling.get_offset > 0 then
      { s with scrolling := s.scrolling.down }
    else s
  | .arrival m =>
    if s.scrolling.get_offset > 0 then
      { s with messages := push_front m s.messages
               scrolling := s.scrolling.up }
    else
      { s with messages := push_front m s.messages }
  | .truncatePass cap =>
    { s with messages := truncateStore cap s.messages }

/-- A sequence of UI-driver operations applied in order. -/
def uiRun {α : Type} (s : AppScroll α) (ops : List (UiOp α)) : AppScroll α :=
  ops.foldl uiStep s

/-! ## The IRC run loop (src/src/twitch/mod.rs)

`twitch_irc` owns `config.twitch.channel` (the active channel), the
`room_state_startup` flag, and loops on a `tokio::select!` marked
`biased` whose first arm is the outbound-action receiver and whose
second arm is the inbound message stream.  Chat entries emitted on `tx`
are modelled by `Data`; the timestamp added by `DataBuilder` is elided
(it never influences control flow). -/

/-- A chat entry sent on the `tx` channel.  `user` is
`DataBuilder::user(author, message)`, `twitch` is
`data_builder.twitch(message)`, `system` is
`data_builder.system(message)`. -/
inductive Data where
  | user (author message : String)
  | twitch (message : String)
  | system (message : String)
deriving DecidableEq, Repr

/-- `TwitchAction`, the outbound-action vocabulary produced by the UI. -/
inductive TwitchAction where
  | privmsg (message : String)
  | join (channel : String)
deriving DecidableEq, Repr

/-- The IRC commands distinguished by `handle_message_command`; every
other command falls into the catch-all arm. -/
inductive IrcCommand where
  | privmsg (target msg : String)
  | notice (target msg : String)
  | raw (cmd : String)
  | other
deriving DecidableEq, Repr

/-- An inbound IRC message: the tag list (key/value pairs whose values
were present), the source nickname, and the command.  The tag `HashMap`
built by `handle_message_command` is modelled by first-match lookup on
the tag list. -/
structure IrcMessage where
  tags : List (String × String)
  source_nickname : String
  command : IrcCommand
deriving DecidableEq, Repr

/-- The text `handle_roomstate` accumulates for one `(name, value)` tag,
with the match arms and guards of the source. -/
def roomStateFlagText (name value : String) : String :=
  if name = "emote-only" ∧ value = "1" then
    "The channel is emote-only.\n"
  else if name = "followers-only" ∧ value ≠ "-1" then
    "The channel is followers-only.\n"
  else if name = "subs-only" ∧ value = "1" then
    "The channel is subscribers-only.\n"
  else if name = "slow" ∧ value ≠ "0" then
    "The channel has a " ++ value ++ "s slowmode.\n"
  else
    ""

/-- The `room_state` string built by `handle_roomstate`: one line per
active flag, then `room_state.pop()` trims the trailing newline.  The
source iterates a `HashMap`, whose order is unspecified; the model takes
the tag list in the given order. -/
def roomStateText (tags : List (String × String)) : String :=
  (tags.foldl (fun acc nv => acc ++ roomStateFlagText nv.1 nv.2) "").dropRight 1

/-- `handle_roomstate`: sends `DataBuilder::user("Info", room_state)` on
`tx` unless the accumulated string is empty. -/
def handle_roomstate (tags : List (String × String)) : List Data :=
  let room_state := roomStateText tags
  if room_state = "" then [] else [Data.user "Info" room_state]

/-- `handle_message_command` without the `tx` side effects: returns the
`Option<bool>` result (the new `room_state_startup` value, when any) and
the list of entries sent on `tx`.  Badge decoration
(`retrieve_user_badges`, behind the `badges` flag) only rewrites the
author name and is elided. -/
def handle_message_command (m : IrcMessage) (room_state_startup : Bool) :
    Option Bool × List Data :=
  match m.command with
  | .privmsg _target msg => (none, [Data.user m.source_nickname msg])
  | .notice _target msg => (none, [Data.twitch msg])
  | .raw cmd =>
    if cmd = "ROOMSTATE" then
      (some true,
       if room_state_startup then [] else handle_roomstate m.tags)
    else if cmd = "USERNOTICE" then
      (none,
       match m.tags.lookup "system-msg" with
       | some value => [Data.twitch value]
       | none => [])
    else (none, [])
  | .other => (none, [])

/-- `m` is a `ROOMSTATE` raw frame. -/
def isRoomState (m : IrcMessage) : Bool :=
  match m.command with
  | .raw cmd => cmd = "ROOMSTATE"
  | _ => false

/-- The inbound arm of the run loop folded over a list of inbound
messages: threads `room_state_startup` (updated exactly when
`handle_message_command` returns `Some`) and accumulates everything sent
on `tx`, oldest first. -/
def processMessages : Bool → List IrcMessage → Bool × List Data
  | room_state_startup, [] => (room_state_startup, [])
  | room_state_startup, m :: rest =>
    let r := handle_message_command m room_state_startup
    let next :=
      processMessages
        (match r.1 with
         | some b => b
         | none => room_state_startup)
        rest
    (next.1, r.2 ++ next.2)

/-- The mutable state of `twitch_irc` together with its observable
effects: the active channel (`config.twitch.channel`), the
`room_state_startup` flag, the entries sent on `tx`, the PRIVMSGs sent
to the server as `(target, message)`, and the channels JOINed
(in order). -/
structure TwitchState where
  channel : String
  room_state_startup : Bool
  emitted : List Data
  sent : List (String × String)
  joined : List String
deriving DecidableEq, Repr

/-- The outbound-action arm of the run loop.  `privmsg` sends to
`"#" ++ channel` (the current channel at the time the action is
handled); `join` parts the current channel, reports `Joined #chan`,
joins the new channel, and durably updates `config.twitch.channel`.
The `sender.send_part`/`send_join` local failures (queueing errors) are
modelled as succeeding. -/
def handleAction (st : TwitchState) : TwitchAction → TwitchState
  | .privmsg message =>
    { st with sent := st.sent ++ [("#" ++ st.channel, message)] }
  | .join channel =>
    let channel_list := "#" ++ channel
    { st with
      emitted := st.emitted ++ [Data.twitch ("Joined " ++ channel_list)]
      joined := st.joined ++ [channel_list]
      channel := channel }

/-- Modelled from the spec: `client_stream_reconnect` lives in
`src/twitch/connection.rs`, which is not among the sources.  Per the
spec, on transport failure the manager "tears down the session,
reconnects, re-authenticates, re-joins the currently active channel, and
emits a notice recording the failure and the reconnection"; the
currently-joined channel name is preserved, "not the originally
configured one". -/
def client_stream_reconnect (st : TwitchState) (err : String) : TwitchState :=
  { st with
    emitted := st.emitted ++
      [Data.twitch ("Attempting to reconnect after error: " ++ err)]
    joined := st.joined ++ ["#" ++ st.channel] }

/-- The inbound arm of the run loop: an `Ok` frame goes through
`handle_message_command` (updating `room_state_startup` when it returns
`Some`); an `Err` triggers `client_stream_reconnect`. -/
def handleInbound (st : TwitchState) : Except String IrcMessage → TwitchState
  | .ok m =>
    let r := handle_message_command m st.room_state_startup
    { st with
      emitted := st.emitted ++ r.2
      room_state_startup :=
        match r.1 with
        | some b => b
        | none => st.room_state_startup }
  | .error err => client_stream_reconnect st err

/-- The two pending-input queues of the `tokio::select!`: outbound
actions from the UI (`rx`) and inbound frames from the server
(`stream`). -/
structure LoopQueues where
  actions : List TwitchAction
  inbound : List (Except String IrcMessage)
deriving Repr

/-- One iteration of the `loop { tokio::select! { biased; ... } }` in
`twitch_irc`: the select is `biased`, and the outbound-action receiver
is its first arm, so whenever an action is pending it is handled before
any pending inbound frame; only with no pending action is an inbound
frame handled; with neither, the `else` arm does nothing. -/
def selectStep (st : TwitchState) (q : LoopQueues) : TwitchState × LoopQueues :=
  match q.actions, q.inbound with
  | a :: rest, ms => (handleAction st a, ⟨rest, ms⟩)
  | [], m :: ms => (handleInbound st m, ⟨[], ms⟩)
  | [], [] => (st, ⟨[], []⟩)

/-- `n` iterations of the run loop. -/
def selectRun : Nat → TwitchState × LoopQueues → TwitchState × LoopQueues
  | 0, p => p
  | n + 1, p => selectRun n (selectStep p.1 p.2)

/-! ## Graphics protocol (src/twitch_tui/src/emotes/graphics_protocol.rs)

Each `write!` of a `gp!(...)` template is modelled as one structured
`GpDirective`; `renderDirective` produces the exact escape string of the
template.  Paths are `String`s; the `STANDARD` base64 engine is
implemented on the path's character codes (staged-file paths are
ASCII). -/

/-- The base64 alphabet of the `STANDARD` engine. -/
def base64Alphabet : List Char :=
  "ABCDEFGHIJKLMNOPQRSTUVWXYZabcdefghijklmnopqrstuvwxyz0123456789+/".data

/-- The alphabet character at index `n` (< 64). -/
def base64Digit (n : Nat) : Char :=
  base64Alphabet.getD n '?'

/-- Standard base64 with padding over a byte list. -/
def base64EncodeBytes : List Nat → List Char
  | [] => []
  | [b1] =>
    [base64Digit (b1 / 4), base64Digit (b1 % 4 * 16), '=', '=']
  | [b1, b2] =>
    [base64Digit (b1 / 4), base64Digit (b1 % 4 * 16 + b2 / 16),
     base64Digit (b2 % 16 * 4), '=']
  | b1 :: b2 :: b3 :: rest =>
    base64Digit (b1 / 4) :: base64Digit (b1 % 4 * 16 + b2 / 16) ::
    base64Digit (b2 % 16 * 4 + b3 / 64) :: base64Digit (b3 % 64) ::
    base64EncodeBytes rest

/-- `STANDARD.encode` on an (ASCII) string. -/
def base64String (s : String) : String :=
  ⟨base64EncodeBytes (s.data.map Char.toNat)⟩

/-- The graphics-protocol directives the source can emit, one
constructor per `write!(f, gp!(...))` site (plus the `MoveTo` prefix of
`Display::write_ansi`). -/
inductive GpDirective where
  /-- `a=t,t=t,f=32,s={width},v={height},i={id},q=2;{payload}` — transmit
  a full RGBA image from a staged file (payload = base64 path). -/
  | transmit (id width height : Nat) (payload : String)
  /-- `a=a,i={id},r=1,z={delay},q=2;` — animation control for frame 1:
  set the first frame's delay. -/
  | firstFrameDelay (id delay : Nat)
  /-- `a=f,t=t,f=32,s={width},v={height},i={id},z={delay},q=2;{payload}`
  — append one animation frame with its delay. -/
  | appendFrame (id width height delay : Nat) (payload : String)
  /-- `a=a,i={id},s=3,v=1,q=2;` — start the animation, looping
  indefinitely. -/
  | startAnimation (id : Nat)
  /-- `MoveTo(x, y)` then
  `a=p,i={id},p={pid},r=1,c={width},X={offset},z={z},q=2;` — display a
  loaded image at a placement. -/
  | display (x y id pid width offset layer : Nat)
  /-- `a=d,d=A,q=2;` — delete and unload all images. -/
  | deleteAllUnload
  /-- `a=d,d=a,q=2;` — delete all images. -/
  | deleteAll
  /-- `a=d,d=i,i={id},p={pid},q=2;` — delete one placement. -/
  | deleteById (id pid : Nat)
deriving DecidableEq, Repr

/-- Wraps a directive body in the `gp!` escape prefix/suffix
(`"\x1B_G" ... "\x1b\\"`). -/
def gpWrap (body : String) : String :=
  "\x1B_G" ++ body ++ "\x1b\\"

/-- The exact escape string of a directive, following the `gp!`
templates of the source (and `MoveTo`'s CSI sequence for `display`). -/
def renderDirective : GpDirective → String
  | .transmit id width height payload =>
    gpWrap ("a=t,t=t,f=32,s=" ++ toString width ++ ",v=" ++ toString height ++
      ",i=" ++ toString id ++ ",q=2;" ++ payload)
  | .firstFrameDelay id delay =>
    gpWrap ("a=a,i=" ++ toString id ++ ",r=1,z=" ++ toString delay ++ ",q=2;")
  | .appendFrame id width height delay payload =>
    gpWrap ("a=f,t=t,f=32,s=" ++ toString width ++ ",v=" ++ toString height ++
      ",i=" ++ toString id ++ ",z=" ++ toString delay ++ ",q=2;" ++ payload)
  | .startAnimation id =>
    gpWrap ("a=a,i=" ++ toString id ++ ",s=3,v=1,q=2;")
  | .display x y id pid width offset layer =>
    "\x1b[" ++ toString (y + 1) ++ ";" ++ toString (x + 1) ++ "H" ++
    gpWrap ("a=p,i=" ++ toString id ++ ",p=" ++ toString pid ++
      ",r=1,c=" ++ toString width ++ ",X=" ++ toString offset ++
      ",z=" ++ toString layer ++ ",q=2;")
  | .deleteAllUnload => gpWrap "a=d,d=A,q=2;"
  | .deleteAll => gpWrap "a=d,d=a,q=2;"
  | .deleteById id pid =>
    gpWrap ("a=d,d=i,i=" ++ toString id ++ ",p=" ++ toString pid ++ ",q=2;")

/-- The width and height fields declared by a directive, when it has
them. -/
def declaredSize : GpDirective → Option (Nat × Nat)
  | .transmit _ width height _ => some (width, height)
  | .appendFrame _ width height _ _ => some (width, height)
  | _ => none

/-- `Clear::write_ansi`: `Clear(0, 0)` deletes and unloads all images,
`Clear(0, pid)` deletes all images, and `Clear(id, pid)` with `id ≠ 0`
deletes one placement. -/
def Clear.write_ansi : Nat × Nat → GpDirective
  | (0, 0) => .deleteAllUnload
  | (0, _) => .deleteAll
  | (id, pid) => .deleteById id pid

/-! ### Staged temp files

`create_temp_file` creates a (prefixed) temp file on disk and returns
its handle and path; `save_in_temp_file` writes the pixel buffer into
it; `remove_temp_file` deletes it.  The disk is the list of staged file
paths currently present; each staging attempt is described by an oracle
recording whether creation and saving succeed and which fresh path the
temp file gets. -/

/-- Outcome oracle for one `create_temp_file` + `save_in_temp_file`
pair: whether the creation succeeds, whether the save succeeds, and the
fresh path of the temp file. -/
structure TempFileSpec where
  create_ok : Bool
  save_ok : Bool
  path : String
deriving DecidableEq, Repr

/-- `remove_temp_file` / `fs::remove_file`: drop the path from disk. -/
def remove_temp_file (path : String) (disk : List String) : List String :=
  disk.erase path

/-- A decoded source image; only the pixel dimensions reach the
directives, so the pixel buffer is elided. -/
structure DecodedImage where
  width : Nat
  height : Nat
deriving DecidableEq, Repr

/-- `StaticImage`: id, pixel dimensions, and the staged file path. -/
structure StaticImage where
  id : Nat
  width : Nat
  height : Nat
  path : String
deriving DecidableEq, Repr

/-- `StaticImage::new`: decodes the image to RGBA (failure propagates),
reads its dimensions, creates a temp file and saves the buffer into it;
if the save fails the temp file is removed again before the error is
returned.  Returns the constructor result and the disk after the
call. -/
def StaticImage.new (id : Nat) (decoded : Except String DecodedImage)
    (tmp : TempFileSpec) (disk : List String) :
    Except String StaticImage × List String :=
  match decoded with
  | .error e => (.error e, disk)
  | .ok image =>
    if tmp.create_ok then
      let disk' := disk ++ [tmp.path]
      if tmp.save_ok then
        (.ok ⟨id, image.width, image.height, tmp.path⟩, disk')
      else
        (.error "save failed", remove_temp_file tmp.path disk')
    else
      (.error "create failed", disk)

/-- `StaticImage::write_ansi`: one transmit directive carrying the
declared width/height and the base64-encoded staged path. -/
def StaticImage.write_ansi (img : StaticImage) : GpDirective :=
  .transmit img.id img.width img.height (base64String img.path)

/-- `AnimatedImage`: id, pixel dimensions, and the ordered
`(staged path, delay in ms)` frames. -/
structure AnimatedImage where
  id : Nat
  width : Nat
  height : Nat
  frames : List (String × Nat)
deriving DecidableEq, Repr

/-- One decoded animation frame about to be staged: its staging oracle
and its delay in ms. -/
structure FrameSpec where
  tmp : TempFileSpec
  delay : Nat
deriving DecidableEq, Repr

/-- The per-frame closure of `AnimatedImage::new`, mapped over all
frames: each frame creates a temp file (adding it to disk) and saves the
buffer into it; a failed creation or save makes that frame an error, and
— unlike `StaticImage::new` — the closure's early return does not remove
a file whose save failed.  Returns the successfully staged
`(path, delay)` pairs in order, whether any frame failed, and the
disk. -/
def stageFrames : List FrameSpec → List String →
    List (String × Nat) × Bool × List String
  | [], disk => ([], false, disk)
  | f :: fs, disk =>
    if f.tmp.create_ok then
      let disk' := disk ++ [f.tmp.path]
      if f.tmp.save_ok then
        let r := stageFrames fs disk'
        ((f.tmp.path, f.delay) :: r.1, r.2.1, r.2.2)
      else
        let r := stageFrames fs disk'
        (r.1, true, r.2.2)
    else
      let r := stageFrames fs disk
      (r.1, true, r.2.2)

/-- `AnimatedImage::new`: decodes all frames (`collect_frames` failure
propagates before anything is staged), stages each frame, and partitions
successes from failures.  If any frame failed, the files of the
successfully staged frames are removed and an error is returned; if no
frame exists, an error is returned; otherwise the image is built.
Returns the constructor result and the disk after the call. -/
def AnimatedImage.new (id : Nat) (dims : Nat × Nat)
    (decodedFrames : Except String (List FrameSpec)) (disk : List String) :
    Except String AnimatedImage × List String :=
  match decodedFrames with
  | .error e => (.error e, disk)
  | .ok fs =>
    let r := stageFrames fs disk
    if r.2.1 then
      (.error "Invalid frame in gif.",
       r.1.foldl (fun d pd => remove_temp_file pd.1 d) r.2.2)
    else if r.1.isEmpty then
      (.error "Image has no frames", r.2.2)
    else
      (.ok ⟨id, dims.1, dims.2, r.1⟩, r.2.2)

/-- `AnimatedImage::write_ansi`: errors on an empty frame list;
otherwise emits the first frame as a transmit directive, then the
`r=1` animation-control directive carrying the first frame's delay, then
one append-frame directive per remaining frame with its delay, then the
start-animation (loop indefinitely) directive. -/
def AnimatedImage.write_ansi (img : AnimatedImage) :
    Except Unit (List GpDirective) :=
  match img.frames with
  | [] => .error ()
  | (path, delay) :: rest =>
    .ok ([GpDirective.transmit img.id img.width img.height (base64String path),
          GpDirective.firstFrameDelay img.id delay] ++
         rest.map (fun pd =>
           GpDirective.appendFrame img.id img.width img.height pd.2
             (base64String pd.1)) ++
         [GpDirective.startAnimation img.id])

/-- The directive sequence the spec describes for an animated asset,
in the spec's words: "first frame as a transmit directive, then one
'append frame' directive per remaining frame carrying its delay, then
one 'start animation, loop indefinitely' directive". -/
def specAnimatedSequence (img : AnimatedImage) : List GpDirective :=
  match img.frames with
  | [] => []
  | (path, _delay) :: rest =>
    [GpDirective.transmit img.id img.width img.height (base64String path)] ++
    rest.map (fun pd =>
      GpDirective.appendFrame img.id img.width img.height pd.2
        (base64String pd.1)) ++
    [GpDirective.startAnimation img.id]

/-! ### Terminal capability probe
(`query_terminal`, `support_graphics_protocol`)

The terminal's reply is modelled as the list of `read_key` results the
probe will observe: a key, or a read error (also used for an exhausted
input). -/

/-- The `dialoguer::console::Key` values `query_terminal`
distinguishes. -/
inductive TKey where
  | unknownEscSeq
  | char (c : Char)
  | otherKey
deriving DecidableEq, Repr

/-- One `read_key` observation: a key, or an I/O error (an exhausted
input behaves like an error). -/
inductive KeyRead where
  | key (k : TKey)
  | readErr
deriving DecidableEq, Repr

/-- The first loop of `query_terminal`: empty the buffer until the first
unknown-escape-sequence key; a read error is propagated by `?`.  Returns
the remaining input. -/
def skipToEscSeq : List KeyRead → Except String (List KeyRead)
  | [] => .error "read_key failed"
  | .readErr :: _ => .error "read_key failed"
  | .key .unknownEscSeq :: rest => .ok rest
  | .key _ :: rest => skipToEscSeq rest

/-- The second loop of `query_terminal`: collect plain characters until
the last character `c` of the query arrives; a read error breaks the
loop, returning what was collected; other keys are skipped. -/
def readResponse (c : Char) : List KeyRead → List Char → List Char
  | [], acc => acc
  | .readErr :: _, acc => acc
  | .key (.char ch) :: rest, acc =>
    if ch = c then acc else readResponse c rest (acc ++ [ch])
  | .key .unknownEscSeq :: rest, acc => readResponse c rest acc
  | .key .otherKey :: rest, acc => readResponse c rest acc

/-- `query_terminal(command)`: writes the command (the write itself is
not modelled), takes the command's last character as the response
terminator, skips to the first escape-sequence key, and collects the
response up to the terminator. -/
def query_terminal (command : List Char) (input : List KeyRead) :
    Except String String :=
  match command.getLast? with
  | none => .error "Command is empty"
  | some c => (skipToEscSeq input).map (fun rest => ⟨readResponse c rest []⟩)

/-- Rust `str::contains`: `pat` occurs as a contiguous substring. -/
def strContainsStr (s pat : String) : Bool :=
  decide (List.IsInfix pat.data s.data)

/-- The probe command of `support_graphics_protocol`: the `gp!` query
`i=31,s=1,v=1,a=q,t=d,f=24;{base64("AAAA")}` followed by the
terminal-attributes query `CSI c`; its last character is `'c'`. -/
def probeCommand : List Char :=
  (gpWrap ("i=31,s=1,v=1,a=q,t=d,f=24;" ++ base64String "AAAA") ++
    "\x1b[c").data

/-- `support_graphics_protocol`: `env::var("TERM")? == "xterm-kitty" ||
env::var("TERM_PROGRAM")? == "WezTerm"`, lazily evaluated (a missing
variable is an error propagated by `?`, and `TERM_PROGRAM` is only read
when `TERM` is not `xterm-kitty`), and — only when the terminal is
known-compatible — `query_terminal(...)?.contains("OK")`. -/
def support_graphics_protocol (term term_program : Option String)
    (input : List KeyRead) : Except String Bool :=
  match term with
  | none => .error "TERM not set"
  | some t =>
    if t = "xterm-kitty" then
      (query_terminal probeCommand input).map (fun r => strContainsStr r "OK")
    else
      match term_program with
      | none => .error "TERM_PROGRAM not set"
      | some p =>
        if p = "WezTerm" then
          (query_terminal probeCommand input).map
            (fun r => strContainsStr r "OK")
        else .ok false

/-- Modelled from the spec: the caller of `support_graphics_protocol`
(in `src/emotes/mod.rs`, which is not among the sources) treats a probe
error as "unsupported" — the probe "fails closed (feature disabled) on
any error, unknown terminal, or ambiguous response ordering", deciding
the process-wide capability boolean once at startup. -/
def probe_capability (term term_program : Option String)
    (input : List KeyRead) : Bool :=
  match support_graphics_protocol term term_program input with
  | .ok b => b
  | .error _ => false

/-! ## Emote cache state and resize handling
(src/twitch_tui/src/terminal.rs)

`Emotes` (defined in `src/emotes/mod.rs`, not among the sources) is
used in `ui_driver` through its `loaded` and `displayed` collections,
both cleared with `.clear()`; their element types are irrelevant here
and kept abstract. -/

/-- The emote cache state visible to `ui_driver`: the `loaded` set and
the `displayed` placements. -/
structure Emotes (α β : Type) where
  loaded : List α
  displayed : List β
deriving Repr

/-- The result of one pass through the resize check at the top of the
draw closure in `ui_driver`: the recorded terminal size, the emote
cache, the staged files still on disk, and the graphics-protocol
directives emitted during the pass. -/
structure ResizeResult (α β : Type) where
  terminal_size : Nat × Nat
  emotes : Emotes α β
  disk : List String
  directives : List GpDirective
deriving Repr

/-- The resize check of the draw closure in `ui_driver`: if the frame
size differs from the recorded terminal size, the recorded size is
updated and `emotes.displayed` and `emotes.loaded` are both cleared.
Nothing else happens in this pass: the staged files on disk are left
as they are and no graphics-protocol directive is emitted. -/
def resizeCheck {α β : Type} (size terminal_size : Nat × Nat)
    (emotes : Emotes α β) (disk : List String) : ResizeResult α β :=
  if size ≠ terminal_size then
    { terminal_size := size
      emotes := { loaded := [], displayed := [] }
      disk := disk
      directives := [] }
  else
    { terminal_size := terminal_size
      emotes := emotes
      disk := disk
      directives := [] }

/-! # Claims -/

/-- C1: For every sequence of N > capacity inserts into the message
store (each entry pushed to the front), after the next truncation pass
(run once per redraw tick, not per insert — no truncation happens
between the inserts) exactly `capacity` entries remain, and they are the
`capacity` most recent entries ordered most-recent-first
(`es.reverse.take cap` lists the last `cap` inserts, latest first). -/
theorem truncation_pass_keeps_capacity_most_recent {α : Type}
    (es store : List α) (cap : Nat) (h : cap < es.length) :
    truncateStore cap (pushAll es store) = es.reverse.take cap ∧
    (truncateStore cap (pushAll es store)).length = cap := by
  have hle : cap ≤ es.reverse.length := by
    simpa using Nat.le_of_lt h
  have heq : truncateStore cap (pushAll es store) = es.reverse.take cap := by
    rw [pushAll_eq_reverse_append, truncateStore,
      List.take_append_eq_append_take, Nat.sub_eq_zero_of_le hle]
    simp
  refine ⟨heq, ?_⟩
  rw [heq, List.length_take]
  exact Nat.min_eq_left hle

/-- Witness for C1: three inserts into an empty store with capacity
two leave exactly the two most recent entries, most-recent-first. -/
theorem truncation_pass_keeps_capacity_most_recent_witness :
    2 < ([1, 2, 3] : List Nat).length ∧
    truncateStore 2 (pushAll [1, 2, 3] ([] : List Nat)) = [3, 2] ∧
    (truncateStore 2 (pushAll [1, 2, 3] ([] : List Nat))).length = 2 := by
  refine ⟨by decide, ?_⟩
  have h := truncation_pass_keeps_capacity_most_recent [1, 2, 3]
    ([] : List Nat) 2 (by decide)
  exact ⟨h.1.trans (by decide), h.2⟩

/-- C2: the run loop's select is priority-biased toward outbound: in a
single iteration with both an action and an inbound frame pending, the
action is handled and the inbound queue is untouched; consequently all
pending outbound actions are drained (in order, by `handleAction`)
before any pending inbound frame is processed. -/
theorem biased_select_drains_outbound_first (st : TwitchState)
    (as : List TwitchAction) (ms : List (Except String IrcMessage)) :
    (∀ a rest m ms',
      selectStep st ⟨a :: rest, m :: ms'⟩ =
        (handleAction st a, ⟨rest, m :: ms'⟩)) ∧
    selectRun as.length (st, ⟨as, ms⟩) = (as.foldl handleAction st, ⟨[], ms⟩) := by
  constructor
  · intro a rest m ms'
    rfl
  · induction as generalizing st with
    | nil => rfl
    | cons a rest ih =>
      simpa [selectRun, selectStep] using ih (handleAction st a)

/-- C5: a session configured on channel "bar" that switches to "foo"
and then suffers a transport failure reconnects to "foo": the
channel-switch handler durably rewrites `config.twitch.channel`, and the
reconnect path (joining the currently active channel) therefore joins
`#foo`, not `#bar`. -/
theorem reconnect_rejoins_switched_channel (st : TwitchState) (e : String)
    (h : st.channel = "bar") :
    (selectRun 2 (st, ⟨[TwitchAction.join "foo"], [Except.error e]⟩)).1.channel
      = "foo" ∧
    (selectRun 2 (st, ⟨[TwitchAction.join "foo"], [Except.error e]⟩)).1.joined
      = st.joined ++ ["#foo", "#foo"] ∧
    (selectRun 2
        (st, ⟨[TwitchAction.join "foo"], [Except.error e]⟩)).1.joined.getLast?
      ≠ some ("#" ++ st.channel) := by
  refine ⟨rfl, by simp [selectRun, selectStep, handleAction, handleInbound,
    client_stream_reconnect], ?_⟩
  have : (selectRun 2
      (st, ⟨[TwitchAction.join "foo"], [Except.error e]⟩)).1.joined
      = st.joined ++ ["#foo", "#foo"] := by
    simp [selectRun, selectStep, handleAction, handleInbound,
      client_stream_reconnect]
  rw [this, h]
  simp

/-- Witness for C5: the concrete session that starts on "bar", switches
to "foo", then hits a transport error, re-joins `#foo`. -/
theorem reconnect_rejoins_switched_channel_witness :
    (⟨"bar", false, [], [], []⟩ : TwitchState).channel = "bar" ∧
    (selectRun 2 (⟨"bar", false, [], [], []⟩,
        ⟨[TwitchAction.join "foo"], [Except.error "eof"]⟩)).1.channel = "foo" ∧
    (selectRun 2 (⟨"bar", false, [], [], []⟩,
        ⟨[TwitchAction.join "foo"], [Except.error "eof"]⟩)).1.joined
      = ["#foo", "#foo"] := by
  have h := reconnect_rejoins_switched_channel
    ⟨"bar", false, [], [], []⟩ "eof" rfl
  exact ⟨rfl, h.1, h.2.1.trans (by simp)⟩

theorem handle_message_command_fst (m : IrcMessage) (b : Bool) :
    (handle_message_command m b).1 =
      if isRoomState m then some true else none := by
  cases hc : m.command with
  | privmsg t msg => simp [handle_message_command, isRoomState, hc]
  | notice t msg => simp [handle_message_command, isRoomState, hc]
  | other => simp [handle_message_command, isRoomState, hc]
  | raw cmd =>
    by_cases hr : cmd = "ROOMSTATE"
    · simp [handle_message_command, isRoomState, hc, hr]
    · by_cases hu : cmd = "USERNOTICE"
      · cases hl : m.tags.lookup "system-msg" <;>
          simp [handle_message_command, isRoomState, hc, hr, hu, hl]
      · simp [handle_message_command, isRoomState, hc, hr, hu]

theorem processMessages_startup_eq (ms : List IrcMessage) (b : Bool) :
    (processMessages b ms).1 = (b || ms.any isRoomState) := by
  induction ms generalizing b with
  | nil => simp [processMessages]
  | cons m rest ih =>
    simp only [processMessages, handle_message_command_fst, List.any_cons]
    by_cases hm : isRoomState m
    · simp [hm, ih]
    · simp [hm, ih]

/-- A `ROOMSTATE` raw frame carrying the given tags. -/
def roomstateFrame (tags : List (String × String)) : IrcMessage :=
  { tags := tags, source_nickname := "tmi.twitch.tv", command := .raw "ROOMSTATE" }

/-- C4: a room-state frame received before any prior room-state frame in
the session (the startup flag starts `false` and is flipped exactly by
room-state frames) yields exactly one summary notice; for the flags
`{emote-only: "1", slow: "5"}` that notice names both flags — it
contains "emote-only" and "5s slowmode" (the 5-second slow mode).
Every room-state frame processed later in the same session (after any
prior room-state frame) yields no summary notice at all, whatever its
tags. -/
theorem roomstate_summary_once_per_session :
    (∀ pre : List IrcMessage, pre.any isRoomState = false →
      handle_message_command (roomstateFrame [("emote-only", "1"), ("slow", "5")])
          (processMessages false pre).1 =
        (some true,
         [Data.user "Info"
            "The channel is emote-only.\nThe channel has a 5s slowmode."])) ∧
    List.IsInfix "emote-only".data
      "The channel is emote-only.\nThe channel has a 5s slowmode.".data ∧
    List.IsInfix "5s slowmode".data
      "The channel is emote-only.\nThe channel has a 5s slowmode.".data ∧
    (∀ pre : List IrcMessage, pre.any isRoomState = true →
      ∀ tags : List (String × String),
        (handle_message_command (roomstateFrame tags)
            (processMessages false pre).1).2 = []) := by
  refine ⟨?_, by decide, by decide, ?_⟩
  · intro pre hpre
    have hflag : (processMessages false pre).1 = false := by
      rw [processMessages_startup_eq, hpre]
      rfl
    rw [hflag]
    rfl
  · intro pre hpre tags
    have hflag : (processMessages false pre).1 = true := by
      rw [processMessages_startup_eq, hpre]
      rfl
    rw [hflag]
    rfl

/-- Witness for C4: with no prior room-state frame (an empty session
prefix) the example frame yields the one summary notice; after a session
prefix containing a room-state frame, the identical frame yields
nothing. -/
theorem roomstate_summary_once_per_session_witness :
    handle_message_command (roomstateFrame [("emote-only", "1"), ("slow", "5")])
        (processMessages false []).1 =
      (some true,
       [Data.user "Info"
          "The channel is emote-only.\nThe channel has a 5s slowmode."]) ∧
    (handle_message_command (roomstateFrame [("emote-only", "1"), ("slow", "5")])
        (processMessages false [roomstateFrame []]).1).2 = [] := by
  refine ⟨roomstate_summary_once_per_session.1 [] (by decide), ?_⟩
  exact roomstate_summary_once_per_session.2.2.2 [roomstateFrame []]
    (by decide) [("emote-only", "1"), ("slow", "5")]

/-- `op` is the once-per-tick truncation pass. -/
def isTruncatePassOp {α : Type} : UiOp α → Bool
  | .truncatePass _ => true
  | _ => false

/-- C9, counterexample: the scroll offset does not stay in `[0, len)`.
From a store holding one message with offset 0, one scroll-up (its guard
is `offset < len`, so it still fires) takes the offset to 1 = len, which
already leaves `[0, len)`; a following truncation pass to capacity 0
shrinks the store without adjusting the offset, so the offset even
exceeds the store length. -/
theorem scroll_offset_reaches_len_counterexample :
    (uiRun ⟨[0], Scrolling.new false⟩ [UiOp.scrollUp]).scrolling.get_offset =
      (uiRun (⟨[0], Scrolling.new false⟩ : AppScroll Nat)
        [UiOp.scrollUp]).messages.length ∧
    (uiRun (⟨[0], Scrolling.new false⟩ : AppScroll Nat)
        [UiOp.scrollUp, UiOp.truncatePass 0]).scrolling.get_offset >
      (uiRun (⟨[0], Scrolling.new false⟩ : AppScroll Nat)
        [UiOp.scrollUp, UiOp.truncatePass 0]).messages.length := by
  decide

/-- C9, amended: the offset is a `usize` and thus never negative;
under scroll-up, scroll-down and new-message arrival it stays in
`[0, len]` (the scroll-up guard `offset < len` lets it reach `len` but
not exceed it); the truncation pass never adjusts the offset, which may
therefore exceed `len` once truncation shrinks the store. -/
theorem scroll_offset_bounded_without_truncation {α : Type} :
    (∀ (ops : List (UiOp α)) (s : AppScroll α),
      ops.all (fun op => !isTruncatePassOp op) = true →
      s.scrolling.get_offset ≤ s.messages.length →
      (uiRun s ops).scrolling.get_offset ≤ (uiRun s ops).messages.length) ∧
    (∀ (s : AppScroll α) (cap : Nat),
      (uiStep s (UiOp.truncatePass cap)).scrolling = s.scrolling) := by
  constructor
  · intro ops
    induction ops with
    | nil => intro s _ h; exact h
    | cons op rest ih =>
      intro s hall hinv
      simp only [List.all_cons, Bool.and_eq_true] at hall
      have hstep : (uiStep s op).scrolling.get_offset ≤
          (uiStep s op).messages.length := by
        cases op with
        | scrollUp =>
          simp only [uiStep]
          split_ifs with h <;>
            dsimp only [Scrolling.get_offset, Scrolling.up] at h hinv ⊢ <;>
            omega
        | scrollDown =>
          simp only [uiStep]
          split_ifs with h <;>
            dsimp only [Scrolling.get_offset, Scrolling.down] at h hinv ⊢ <;>
            omega
        | arrival m =>
          simp only [uiStep]
          split_ifs with h <;>
            dsimp only [Scrolling.get_offset, Scrolling.up,
              push_front] at h hinv ⊢ <;>
            simp only [List.length_cons] <;> omega
        | truncatePass cap =>
          simp [isTruncatePassOp] at hall
      exact ih (uiStep s op) hall.2 hstep
  · intro s cap
    rfl

/-- Witness for C9's amended claim: a concrete truncation-free run
(scroll up twice, receive a message, scroll down) keeps the offset
within `[0, len]`, and a truncation pass leaves the offset untouched. -/
theorem scroll_offset_bounded_without_truncation_witness :
    ([UiOp.scrollUp, UiOp.scrollUp, UiOp.arrival 7,
        UiOp.scrollDown].all (fun op => !isTruncatePassOp op) = true) ∧
    ((⟨[1, 2], Scrolling.new false⟩ : AppScroll Nat).scrolling.get_offset ≤
      (⟨[1, 2], Scrolling.new false⟩ : AppScroll Nat).messages.length) ∧
    (uiRun (⟨[1, 2], Scrolling.new false⟩ : AppScroll Nat)
        [UiOp.scrollUp, UiOp.scrollUp, UiOp.arrival 7,
          UiOp.scrollDown]).scrolling.get_offset ≤
      (uiRun (⟨[1, 2], Scrolling.new false⟩ : AppScroll Nat)
        [UiOp.scrollUp, UiOp.scrollUp, UiOp.arrival 7,
          UiOp.scrollDown]).messages.length ∧
    (uiStep (⟨[1, 2], Scrolling.new false⟩ : AppScroll Nat)
        (UiOp.truncatePass 1)).scrolling =
      (⟨[1, 2], Scrolling.new false⟩ : AppScroll Nat).scrolling := by
  refine ⟨by decide, by decide, ?_, ?_⟩
  · exact scroll_offset_bounded_without_truncation.1
      [UiOp.scrollUp, UiOp.scrollUp, UiOp.arrival 7, UiOp.scrollDown]
      ⟨[1, 2], Scrolling.new false⟩ (by decide) (by decide)
  · exact scroll_offset_bounded_without_truncation.2
      ⟨[1, 2], Scrolling.new false⟩ 1

/-- C3, counterexample: on a viewport resize the draw closure clears
`loaded` and `displayed`, but it does not reclaim any staged file and
emits no delete directive of any kind — in particular neither
`Clear(0, 0)` ("delete and unload all") nor `Clear(0, 1)` ("delete all
images") reaches the terminal — so the claim's "staged files reclaimed
and a delete-all directive emitted" is false at this concrete resize. -/
theorem resize_no_reclaim_no_delete_counterexample :
    (resizeCheck (10, 10) (5, 5)
        (⟨["emoteA"], [0]⟩ : Emotes String Nat) ["stagedA"]).emotes.loaded
      = [] ∧
    (resizeCheck (10, 10) (5, 5)
        (⟨["emoteA"], [0]⟩ : Emotes String Nat) ["stagedA"]).emotes.displayed
      = [] ∧
    (resizeCheck (10, 10) (5, 5)
        (⟨["emoteA"], [0]⟩ : Emotes String Nat) ["stagedA"]).disk
      = ["stagedA"] ∧
    (resizeCheck (10, 10) (5, 5)
        (⟨["emoteA"], [0]⟩ : Emotes String Nat) ["stagedA"]).directives
      = [] ∧
    Clear.write_ansi (0, 0) ∉
      (resizeCheck (10, 10) (5, 5)
        (⟨["emoteA"], [0]⟩ : Emotes String Nat) ["stagedA"]).directives ∧
    Clear.write_ansi (0, 1) ∉
      (resizeCheck (10, 10) (5, 5)
        (⟨["emoteA"], [0]⟩ : Emotes String Nat) ["stagedA"]).directives := by
  refine ⟨rfl, rfl, rfl, rfl, ?_, ?_⟩ <;> decide

/-- C3, amended: for every viewport resize (frame size differing from
the recorded terminal size) the cache's `loaded` and `displayed` sets
are both empty before the next redraw begins and the new size is
recorded — the invalidation of the two sets is always total, never
partial — but the staged files on disk are left untouched and no
"delete all images" directive is emitted by the resize path. -/
theorem resize_clears_both_sets_only {α β : Type}
    (size terminal_size : Nat × Nat) (emotes : Emotes α β)
    (disk : List String) (h : size ≠ terminal_size) :
    (resizeCheck size terminal_size emotes disk).emotes.loaded = [] ∧
    (resizeCheck size terminal_size emotes disk).emotes.displayed = [] ∧
    (resizeCheck size terminal_size emotes disk).terminal_size = size ∧
    (resizeCheck size terminal_size emotes disk).disk = disk ∧
    (resizeCheck size terminal_size emotes disk).directives = [] := by
  simp [resizeCheck, h]

/-- Witness for C3's amended claim at a concrete resize. -/
theorem resize_clears_both_sets_only_witness :
    ((10, 10) : Nat × Nat) ≠ ((5, 5) : Nat × Nat) ∧
    (resizeCheck (10, 10) (5, 5)
        (⟨["emoteB", "emoteC"], [1]⟩ : Emotes String Nat)
        ["stagedB"]).emotes.loaded = [] ∧
    (resizeCheck (10, 10) (5, 5)
        (⟨["emoteB", "emoteC"], [1]⟩ : Emotes String Nat)
        ["stagedB"]).emotes.displayed = [] ∧
    (resizeCheck (10, 10) (5, 5)
        (⟨["emoteB", "emoteC"], [1]⟩ : Emotes String Nat)
        ["stagedB"]).disk = ["stagedB"] := by
  refine ⟨by decide, ?_⟩
  have h := resize_clears_both_sets_only (10, 10) (5, 5)
    (⟨["emoteB", "emoteC"], [1]⟩ : Emotes String Nat) ["stagedB"] (by decide)
  exact ⟨h.1, h.2.1, h.2.2.2.1⟩

/-- C7, counterexample: the emitted directive sequence is not exactly
"transmit, then one append-frame per remaining frame, then start
animation": for a one-frame animated asset the encoder emits three
directives (transmit, then the `r=1` animation-control directive
carrying the first frame's delay, then start-animation), not the two
the claim describes. -/
theorem animated_encoding_extra_directive_counterexample :
    AnimatedImage.write_ansi ⟨7, 32, 32, [("frame0", 40)]⟩ ≠
      Except.ok (specAnimatedSequence ⟨7, 32, 32, [("frame0", 40)]⟩) := by
  intro h
  simp only [AnimatedImage.write_ansi, specAnimatedSequence] at h
  exact absurd (Except.ok.inj h) (by decide)

/-- C7, amended: for every animated asset with at least one frame,
encoding emits the first frame as a transmit directive, then one
animation-control directive carrying the FIRST frame's delay, then one
append-frame directive per remaining frame carrying that frame's delay,
then one "start animation, loop indefinitely" directive, in that order —
i.e. the claimed sequence with the first-frame-delay control directive
inserted right after the transmit. -/
theorem animated_encoding_order (img : AnimatedImage) (path : String)
    (delay : Nat) (rest : List (String × Nat))
    (h : img.frames = (path, delay) :: rest) :
    AnimatedImage.write_ansi img =
      Except.ok (List.insertIdx 1 (GpDirective.firstFrameDelay img.id delay)
        (specAnimatedSequence img)) := by
  cases img with
  | mk id width height frames =>
    cases h
    simp [AnimatedImage.write_ansi, specAnimatedSequence, List.insertIdx]

/-- Witness for C7's amended claim: a concrete two-frame animation. -/
theorem animated_encoding_order_witness :
    (⟨7, 32, 32, [("frame0", 40), ("frame1", 60)]⟩ :
        AnimatedImage).frames = ("frame0", 40) :: [("frame1", 60)] ∧
    AnimatedImage.write_ansi
        (⟨7, 32, 32, [("frame0", 40), ("frame1", 60)]⟩ : AnimatedImage) =
      Except.ok (List.insertIdx 1 (GpDirective.firstFrameDelay 7 40)
        (specAnimatedSequence
          (⟨7, 32, 32, [("frame0", 40), ("frame1", 60)]⟩ : AnimatedImage))) :=
  ⟨rfl, animated_encoding_order ⟨7, 32, 32, [("frame0", 40), ("frame1", 60)]⟩
    "frame0" 40 [("frame1", 60)] rfl⟩

/-- C8: whenever a source image decodes successfully and its static
asset is constructed, the width and height fields declared in the
emitted transmit directive equal the pixel dimensions of the decoded
source image. -/
theorem transmit_directive_declares_true_dimensions (id : Nat)
    (img : DecodedImage) (tmp : TempFileSpec) (disk : List String)
    (si : StaticImage) (disk' : List String)
    (h : StaticImage.new id (Except.ok img) tmp disk = (Except.ok si, disk')) :
    declaredSize (StaticImage.write_ansi si) = some (img.width, img.height) := by
  simp only [StaticImage.new] at h
  split_ifs at h with hc hs
  · have hsi : si = ⟨id, img.width, img.height, tmp.path⟩ := by
      have := congrArg Prod.fst h
      simpa using this.symm
    rw [hsi]
    rfl
  · exact absurd (congrArg Prod.fst h) (by simp)
  · exact absurd (congrArg Prod.fst h) (by simp)

/-- Witness for C8: a concrete 16×24 decoded image whose staging
succeeds; the transmit directive declares 16×24. -/
theorem transmit_directive_declares_true_dimensions_witness :
    StaticImage.new 1 (Except.ok ⟨16, 24⟩) ⟨true, true, "p0"⟩ [] =
      (Except.ok ⟨1, 16, 24, "p0"⟩, ["p0"]) ∧
    declaredSize (StaticImage.write_ansi ⟨1, 16, 24, "p0"⟩) = some (16, 24) :=
  ⟨rfl, transmit_directive_declares_true_dimensions 1 ⟨16, 24⟩
    ⟨true, true, "p0"⟩ [] ⟨1, 16, 24, "p0"⟩ ["p0"] rfl⟩

/-- C10: the constructor does return an error when a frame fails to
stage, but the cleanup pass removes only the files of the successfully
staged frames: the temp file already created for the very frame whose
save failed stays on disk.  Concretely, with two frames where frame
`tmpB`'s `save_in_temp_file` fails after its `create_temp_file`
succeeded, `AnimatedImage::new` returns the error and leaves `tmpB` on
disk — contradicting the cleanup comment in the source ("we need to
delete the temp files, as the terminal won't do it for us") and the
claim that no staged temp file remains. -/
theorem animated_new_error_leaks_staged_file :
    AnimatedImage.new 3 (64, 64)
        (Except.ok [⟨⟨true, true, "tmpA"⟩, 10⟩, ⟨⟨true, false, "tmpB"⟩, 20⟩])
        [] =
      (Except.error "Invalid frame in gif.", ["tmpB"]) := by
  rfl

/-- C6: the capability probe reports `true` exactly when the terminal
identifies as a known-compatible program (`TERM=xterm-kitty`, or `TERM`
set to something else and `TERM_PROGRAM=WezTerm`) AND the query
round-trip succeeds with a response that contains "OK" — i.e. the
graphics-protocol reply was observed before the terminal-attributes
reply's terminator arrived.  For every other input — a missing
environment variable, an unknown terminal, a read error before the
response, or a response without "OK" — the probe reports `false`
(feature disabled) rather than erroring per call. -/
theorem probe_capability_characterization (term term_program : Option String)
    (input : List KeyRead) :
    probe_capability term term_program input = true ↔
      ((term = some "xterm-kitty" ∨
        (term ≠ none ∧ term_program = some "WezTerm")) ∧
       ∃ r, query_terminal probeCommand input = Except.ok r ∧
         strContainsStr r "OK" = true) := by
  cases term with
  | none =>
    simp [probe_capability, support_graphics_protocol]
  | some t =>
    by_cases ht : t = "xterm-kitty"
    · subst ht
      cases hq : query_terminal probeCommand input with
      | error e =>
        simp [probe_capability, support_graphics_protocol, hq, Except.map]
      | ok r =>
        simp [probe_capability, support_graphics_protocol, hq, Except.map]
    · cases term_program with
      | none =>
        simp [probe_capability, support_graphics_protocol, ht]
      | some p =>
        by_cases hp : p = "WezTerm"
        · subst hp
          cases hq : query_terminal probeCommand input with
          | error e =>
            simp [probe_capability, support_graphics_protocol, hq,
              Except.map, ht]
          | ok r =>
            simp [probe_capability, support_graphics_protocol, hq,
              Except.map, ht]
        · simp [probe_capability, support_graphics_protocol, ht, hp]
